import Mathlib

/-!
# Verification of the almatyauabot subscription decision engine

Shallow embedding of the air-quality notification engine of this repository:

* `app/services/subscription_checker.py` — the per-subscription filter/decision
  pipeline (`process_subscription`), the safety-net monitor
  (`process_safety_net_session`), the notification helpers, and the cycle driver
  (`check_subscriptions`);
* `app/services/air_quality.py` — the nearest-station resolver
  (`AirQualityService.find_nearest_station`);
* `app/db/models.py` — the `Subscription`, `SafetyNetSession` and
  `AirQualityStation` records.

Modelling conventions:

* Instants (`datetime.utcnow()` and the DateTime columns) are UTC seconds since
  the epoch, as `Nat`; `datetime.hour` becomes `now / 3600 % 24`.
* The geographic pair (`latitude`, `longitude`, and the PostGIS `location`
  column) of a subscription is abstracted as a single key `location : Nat`; the
  resolver consumed by the cycle is a parameter `resolve : Nat → Option …`
  standing for `AirQualityService.find_nearest_station` applied at that point
  with the fixed 50 km radius.  The resolver itself is embedded separately
  (`find_nearest_station` below) over an explicit station list, with the
  geodesic distance from the query point given as a function parameter.
* Notification dispatch is modelled at the engine boundary: the call into
  `send_expiration_notification` / `send_clean_air_notification` /
  `send_bad_air_alert` emits an event.  The interior of those helpers (user
  language lookup, message rendering, the Telegram API call) is the external
  dispatcher of the design and is failure-isolated by each helper's own
  `except` block.
* An item whose evaluation raises an unexpected exception is modelled by the
  environment flags `subRaises` / `sessRaises`: the per-item `try`/`except`
  catches it, the item's state is left as it was, and the cycle moves on.
-/

/-- One row of `air_quality_stations` (`app/db/models.py`), restricted to the
fields the engine reads: the external station key, the nullable `aqi` column
(Integer), and the nullable `last_measurement_at` instant.  Message-rendering
fields (`name`, pollutant concentrations, temperature, humidity) are not part
of any decision and are omitted. -/
structure AirQualityStation where
  station_id : Nat
  aqi : Option Int
  last_measurement_at : Option Nat
deriving Repr, DecidableEq

/-- One row of `subscriptions` (`app/db/models.py`), restricted to the fields
the engine reads and writes.  `location` abstracts the geographic point
(`latitude`/`longitude`/`location` columns).  Note that the model defines no
`auto_safety_net` column — this matters for `send_clean_air_notification`
below. -/
structure Subscription where
  id : Nat
  user_id : Nat
  location : Nat
  expiry_date : Option Nat
  mute_start : Nat
  mute_end : Nat
  last_notified_at : Option Nat
  last_aqi_level : Option Int
  is_active : Bool
deriving Repr, DecidableEq

/-- One row of `safety_net_sessions` (`app/db/models.py`): owner, backing
subscription, baseline AQI captured at session start, and the expiry instant. -/
structure SafetyNetSession where
  id : Nat
  user_id : Nat
  subscription_id : Nat
  start_aqi : Int
  session_expiry : Nat
deriving Repr, DecidableEq

/-- `datetime.utcnow().hour` for an instant measured in UTC seconds. -/
def hourOf (now : Nat) : Nat := now / 3600 % 24

/-- Filter 1 of `process_subscription` (subscription_checker.py line 127):
`subscription.expiry_date and datetime.utcnow() > subscription.expiry_date`. -/
def isExpired (now : Nat) (sub : Subscription) : Bool :=
  match sub.expiry_date with
  | some e => decide (now > e)
  | none => false

/-- Filter 2 of `process_subscription` (lines 139-144): the quiet-hours test on
the current hour `h` against `[mute_start, mute_end)`, wrapping past midnight
when `mute_start > mute_end`. -/
def isQuietTime (h mute_start mute_end : Nat) : Bool :=
  if mute_start > mute_end then
    decide (h ≥ mute_start) || decide (h < mute_end)
  else
    decide (mute_start ≤ h) && decide (h < mute_end)

/-- Filter 3 of `process_subscription` (lines 151-155): a notification was
already sent and `(now − last_notified_at).total_seconds() / 3600 < 4`; in
whole seconds that is `now − last_notified_at < 14400`. -/
def inCooldown (now : Nat) (sub : Subscription) : Bool :=
  match sub.last_notified_at with
  | some t => decide (now - t < 4 * 3600)
  | none => false

/-- Result of one evaluation of `process_subscription` (lines 123-193) for one
subscription: which branch of the pipeline fired. -/
inductive SubResult where
  | expire
  | quiet
  | cooldown
  | noStation
  | noAqi
  | notify (aqi : Int)
  | noTransition (aqi : Int)
deriving Repr, DecidableEq

/-- The pure filter/decision pipeline of `process_subscription`
(subscription_checker.py lines 123-193): ordered filters (expiration, quiet
hours, cooldown), then the resolver outcome `lookup` (the value of
`AirQualityService.find_nearest_station` at the subscription's point), then the
hysteresis decision `previous_aqi is not None and previous_aqi > 50 and
current_aqi <= 50`.  Returns the branch taken and the updated subscription
record. -/
def processSubscriptionPure (now : Nat) (lookup : Option AirQualityStation)
    (sub : Subscription) : SubResult × Subscription :=
  if isExpired now sub then
    (.expire, { sub with is_active := false })
  else if isQuietTime (hourOf now) sub.mute_start sub.mute_end then
    (.quiet, sub)
  else if inCooldown now sub then
    (.cooldown, sub)
  else
    match lookup with
    | none => (.noStation, sub)
    | some st =>
      match st.aqi with
      | none => (.noAqi, sub)
      | some current_aqi =>
        match sub.last_aqi_level with
        | some previous_aqi =>
          if previous_aqi > 50 ∧ current_aqi ≤ 50 then
            (.notify current_aqi,
              { sub with last_notified_at := some now,
                         last_aqi_level := some current_aqi })
          else
            (.noTransition current_aqi, { sub with last_aqi_level := some current_aqi })
        | none =>
          (.noTransition current_aqi, { sub with last_aqi_level := some current_aqi })

/-! ## The cycle driver (`check_subscriptions`, lines 55-99)

One scheduler cycle opens a database session, loads the active subscriptions,
evaluates each with `process_subscription`, loads the unexpired safety-net
sessions, evaluates each with `process_safety_net_session`, and commits.  The
observable actions of a cycle are recorded as a trace of events. -/

/-- Observable actions of one scheduler cycle, in program order.
`evalSub` / `evalSession` mark the start of one item's evaluation (the entry of
the per-item `try` block); `caughtSub` / `caughtSession` mark an unexpected
exception swallowed by the per-item handler; the `send…` events are the calls
into the dispatch helpers; `commit` is a `db.commit()`. -/
inductive Event where
  | evalSub (subId : Nat)
  | evalSession (sessionId : Nat)
  | caughtSub (subId : Nat)
  | caughtSession (sessionId : Nat)
  | sendExpiry (userId subId : Nat)
  | sendCleanAir (userId : Nat) (aqi : Int)
  | sendBadAir (userId sessionId : Nat) (aqi : Int)
  | commit
deriving Repr, DecidableEq

/-- The external world of one cycle: the resolver (the value
`AirQualityService.find_nearest_station` would return at a given location key
with the 50 km radius), and the fault injection for unexpected per-item
exceptions. -/
structure Env where
  resolve : Nat → Option AirQualityStation
  subRaises : Nat → Bool
  sessRaises : Nat → Bool

/-- The committed database contents between cycles. -/
structure Store where
  subs : List Subscription
  sessions : List SafetyNetSession
deriving Repr, DecidableEq

/-- State threaded through the subscription loop of a cycle: the subscriptions
already processed (with their in-session mutations) and the event trace so
far. -/
structure CycleState where
  done : List Subscription
  trace : List Event
deriving Repr, DecidableEq

/-- Embeds `send_clean_air_notification` (subscription_checker.py lines
254-330): the clean-air message is dispatched (line 296).  The auto safety-net
block (lines 304-327, including the `db.commit()` at line 326) then reads
`subscription.auto_safety_net`; `Subscription` in `app/db/models.py` defines no
such attribute (and no migration in the repository adds one), so that access
raises `AttributeError`, which this function's own `except` (line 329) catches
and logs.  The block therefore has no effect in any execution: no session is
ever auto-created and no mid-cycle commit is ever issued. -/
def send_clean_air_notification (sub : Subscription) (aqi : Int)
    (cs : CycleState) : CycleState :=
  { cs with trace := cs.trace ++ [.sendCleanAir sub.user_id aqi] }

/-- Embeds `process_subscription` (lines 102-196) as one step of the cycle's
subscription loop: the `try` body is `processSubscriptionPure` plus the
dispatch calls; an unexpected exception (`env.subRaises`) is caught by the
per-item handler (lines 195-196) and leaves the subscription as it was. -/
def process_subscription (now : Nat) (env : Env) (cs : CycleState)
    (sub : Subscription) : CycleState :=
  let cs₁ : CycleState := { cs with trace := cs.trace ++ [.evalSub sub.id] }
  if env.subRaises sub.id then
    { cs₁ with done := cs₁.done ++ [sub], trace := cs₁.trace ++ [.caughtSub sub.id] }
  else
    match processSubscriptionPure now (env.resolve sub.location) sub with
    | (.expire, updated) =>
      { cs₁ with done := cs₁.done ++ [updated],
                 trace := cs₁.trace ++ [.sendExpiry sub.user_id sub.id] }
    | (.notify current_aqi, updated) =>
      let cs₂ := send_clean_air_notification sub current_aqi cs₁
      { cs₂ with done := cs₂.done ++ [updated] }
    | (_, updated) => { cs₁ with done := cs₁.done ++ [updated] }

/-- State threaded through the safety-net loop of a cycle: the in-session
subscriptions (queried by `process_safety_net_session`, never mutated by it),
the in-session session rows, and the trace. -/
structure Phase2State where
  subs : List Subscription
  sessions : List SafetyNetSession
  trace : List Event
deriving Repr, DecidableEq

/-- Embeds `process_safety_net_session` (lines 385-452) as one step of the
cycle's safety-net loop.  Branches, in source order: expiry check (delete
silently), orphan check (backing subscription missing: delete silently),
resolver lookup (`None` or absent AQI: keep the session), then the worsening
decision `current_aqi > 75 or current_aqi > start_aqi + 40` (dispatch the bad
air alert and delete the session).  The ORM `db.delete(session)` removes the
row with the session's primary key, embedded as a filter on `id`.  An
unexpected exception (`env.sessRaises`) is caught by the per-item handler
(lines 451-452). -/
def process_safety_net_session (now : Nat) (env : Env) (ps : Phase2State)
    (sess : SafetyNetSession) : Phase2State :=
  let ps₁ : Phase2State := { ps with trace := ps.trace ++ [.evalSession sess.id] }
  if env.sessRaises sess.id then
    { ps₁ with trace := ps₁.trace ++ [.caughtSession sess.id] }
  else if now > sess.session_expiry then
    { ps₁ with sessions := ps₁.sessions.filter (fun t => decide (t.id ≠ sess.id)) }
  else
    match ps₁.subs.find? (fun sub => sub.id == sess.subscription_id) with
    | none => { ps₁ with sessions := ps₁.sessions.filter (fun t => decide (t.id ≠ sess.id)) }
    | some sub =>
      match env.resolve sub.location with
      | none => ps₁
      | some st =>
        match st.aqi with
        | none => ps₁
        | some current_aqi =>
          if current_aqi > 75 ∨ current_aqi > sess.start_aqi + 40 then
            { ps₁ with
                sessions := ps₁.sessions.filter (fun t => decide (t.id ≠ sess.id)),
                trace := ps₁.trace ++ [.sendBadAir sess.user_id sess.id current_aqi] }
          else ps₁

/-- The subscriptions loaded by the cycle (line 71-74):
`select(Subscription).where(Subscription.is_active == True)`. -/
def loadedSubs (store : Store) : List Subscription :=
  store.subs.filter (fun s => s.is_active)

/-- The subscription loop of the cycle (lines 78-79). -/
def runPhase1 (now : Nat) (env : Env) (store : Store) : CycleState :=
  (loadedSubs store).foldl (process_subscription now env) ⟨[], []⟩

/-- The in-session subscription rows after the subscription loop: the loaded
rows carry their mutations; rows that were not loaded (inactive) are
untouched. -/
def subsAfterPhase1 (now : Nat) (env : Env) (store : Store) : List Subscription :=
  (runPhase1 now env store).done ++ store.subs.filter (fun s => !s.is_active)

/-- The safety-net sessions loaded by the cycle (lines 82-86):
`select(SafetyNetSession).where(SafetyNetSession.session_expiry > utcnow())`. -/
def loadedSessions (now : Nat) (store : Store) : List SafetyNetSession :=
  store.sessions.filter (fun s => decide (s.session_expiry > now))

/-- The safety-net loop of the cycle (lines 91-92). -/
def runPhase2 (now : Nat) (env : Env) (store : Store) : Phase2State :=
  (loadedSessions now store).foldl (process_safety_net_session now env)
    ⟨subsAfterPhase1 now env store, store.sessions, (runPhase1 now env store).trace⟩

/-- Embeds `check_subscriptions` (lines 55-99), one scheduler cycle: load and
evaluate the active subscriptions, load and evaluate the unexpired safety-net
sessions, then `db.commit()` (line 94).  Following §5 of the design, every read
of `utcnow()` within the cycle is the single instant `now`.  The outer
`except`/rollback (lines 97-99) only fires when the loads themselves fail —
per-item faults are swallowed inside the loops — and is not a behaviour of
this model. -/
def check_subscriptions (now : Nat) (env : Env) (store : Store) :
    Store × List Event :=
  let p2 := runPhase2 now env store
  (⟨p2.subs, p2.sessions⟩, p2.trace ++ [.commit])

/-- A run of the 15-minute scheduler (`start_scheduler`, lines 36-48): a
sequence of cycles, each with its own instant and environment, starting from a
committed store; the traces are concatenated. -/
def runTicks : List (Nat × Env) → Store → Store × List Event
  | [], store => (store, [])
  | tk :: rest, store =>
    let r := check_subscriptions tk.1 tk.2 store
    let r2 := runTicks rest r.1
    (r2.1, r.2 ++ r2.2)

/-! ## The nearest-station resolver (`app/services/air_quality.py`, lines 16-66) -/

/-- Line 39 of air_quality.py: `max_measurement_age = utcnow() - timedelta(minutes=150)`. -/
def freshCutoff (now : Nat) : Nat := now - 150 * 60

/-- The freshness condition of the query (line 55):
`AirQualityStation.last_measurement_at >= max_measurement_age`.  A SQL `NULL`
measurement instant never satisfies the comparison. -/
def isFreshStation (now : Nat) (st : AirQualityStation) : Bool :=
  match st.last_measurement_at with
  | some t => decide (t ≥ freshCutoff now)
  | none => false

/-- One step of `ORDER BY distance LIMIT 1`: keep whichever of the two rows is
strictly nearer, keeping the earlier row on ties (the source's tie order is
arbitrary but reproducible within one snapshot; no caller depends on it). -/
def pickNearer (d : AirQualityStation → ℚ) (acc : Option AirQualityStation)
    (st : AirQualityStation) : Option AirQualityStation :=
  match acc with
  | none => some st
  | some best => if d st < d best then some st else some best

/-- Embeds `AirQualityService.find_nearest_station` (air_quality.py lines
16-66): of the stations whose geodesic distance from the query point is at most
`max_distance_km * 1000` metres (line 54) and whose last measurement is within
the 150-minute freshness window (line 55), return one at minimum distance, or
`none` when no station qualifies.  `d` gives each station's distance in metres
from the query point (the `ST_Distance` of the source); the `latitude` /
`longitude` arguments of the source are absorbed into `d`. -/
def find_nearest_station (d : AirQualityStation → ℚ) (max_distance_km : ℚ)
    (now : Nat) (stations : List AirQualityStation) : Option AirQualityStation :=
  (stations.filter
      (fun st => decide (d st ≤ max_distance_km * 1000) && isFreshStation now st)).foldl
    (pickNearer d) none

/-- The resolver as an operation on the sensor reading store: the source issues
a single `SELECT` (no `INSERT`/`UPDATE`/`DELETE`/`commit`), so the store
component of the result is the input store. -/
def find_nearest_station_op (d : AirQualityStation → ℚ) (max_distance_km : ℚ)
    (now : Nat) (stations : List AirQualityStation) :
    Option AirQualityStation × List AirQualityStation :=
  (find_nearest_station d max_distance_km now stations, stations)

/-! ## Trace bookkeeping -/

/-- Events that one subscription's evaluation may append after its `evalSub`
marker. -/
def isSubPayload : Event → Bool
  | .caughtSub _ => true
  | .sendExpiry _ _ => true
  | .sendCleanAir _ _ => true
  | _ => false

/-- Events that one safety-net session's evaluation may append after its
`evalSession` marker. -/
def isSessPayload : Event → Bool
  | .caughtSession _ => true
  | .sendBadAir _ _ _ => true
  | _ => false

/-- Recognises a `db.commit()` in the trace. -/
def isCommitEvent : Event → Bool
  | .commit => true
  | _ => false

/-- Recognises the start of an item's evaluation in the trace. -/
def isEvalEvent : Event → Bool
  | .evalSub _ => true
  | .evalSession _ => true
  | _ => false

/-- Recognises a bad-air alert attributed to safety-net session `i`. -/
def isAlertFor (i : Nat) : Event → Bool
  | .sendBadAir _ sessionId _ => sessionId == i
  | _ => false

/-- Number of bad-air alerts for session `i` in a trace. -/
def alertsFor (i : Nat) (tr : List Event) : Nat := tr.countP (isAlertFor i)

/-- The subscription id of an `evalSub` event. -/
def evalSubIdOf : Event → Option Nat
  | .evalSub subId => some subId
  | _ => none

/-- The session id of an `evalSession` event. -/
def evalSessionIdOf : Event → Option Nat
  | .evalSession sessionId => some sessionId
  | _ => none

/-- `true` iff every `db.commit()` of the trace happens after every item
evaluation: once a commit has been seen, no `evalSub`/`evalSession` may
follow. -/
def evalsBeforeCommits : List Event → Bool
  | [] => true
  | e :: rest =>
    if isCommitEvent e then rest.all (fun x => !isEvalEvent x)
    else evalsBeforeCommits rest

/-! ## Shared concrete fixtures for witnesses -/

/-- A station with index 40 and a fresh measurement. -/
def stGood : AirQualityStation := ⟨1, some 40, some 36000⟩

/-- An environment whose resolver always finds `stGood` and that injects no
fault. -/
def envGood : Env := ⟨fun _ => some stGood, fun _ => false, fun _ => false⟩

/-- A subscription with quiet hours 23-7, no expiry, no prior notification,
and last observed index 80. -/
def subW : Subscription := ⟨1, 7, 0, none, 23, 7, none, some 80, true⟩

/-! ## Helper lemmas on the pure pipeline -/

/-- A non-expired subscription never takes the expire branch. -/
theorem processPure_ne_expire (now : Nat) (lookup : Option AirQualityStation)
    (sub : Subscription) (h : isExpired now sub = false) :
    (processSubscriptionPure now lookup sub).1 ≠ .expire := by
  unfold processSubscriptionPure
  rw [h]
  simp only [Bool.false_eq_true, if_false]
  split
  · simp
  split
  · simp
  rcases lookup with _ | st
  · simp
  rcases hst : st.aqi with _ | current_aqi <;> simp only [hst]
  · simp
  rcases hl : sub.last_aqi_level with _ | previous_aqi <;> simp only [hl]
  · simp
  split <;> simp

/-- With an empty quiet window (`mute_start = mute_end`) the pipeline never
takes the quiet branch. -/
theorem processPure_ne_quiet (now : Nat) (lookup : Option AirQualityStation)
    (sub : Subscription)
    (hq : isQuietTime (hourOf now) sub.mute_start sub.mute_end = false) :
    (processSubscriptionPure now lookup sub).1 ≠ .quiet := by
  unfold processSubscriptionPure
  rw [hq]
  split
  · simp
  simp only [Bool.false_eq_true, if_false]
  split
  · simp
  rcases lookup with _ | st
  · simp
  rcases hst : st.aqi with _ | current_aqi <;> simp only [hst]
  · simp
  rcases hl : sub.last_aqi_level with _ | previous_aqi <;> simp only [hl]
  · simp
  split <;> simp

/-- When all three filters pass and the resolver yields an AQI, the notify
branch fires exactly on a `previous > 50` to `current ≤ 50` transition. -/
theorem processPure_notify (now : Nat) (st : AirQualityStation)
    (current_aqi previous_aqi : Int) (sub : Subscription)
    (hex : isExpired now sub = false)
    (hq : isQuietTime (hourOf now) sub.mute_start sub.mute_end = false)
    (hc : inCooldown now sub = false)
    (haqi : st.aqi = some current_aqi)
    (hp : sub.last_aqi_level = some previous_aqi)
    (h50 : previous_aqi > 50) (hcur : current_aqi ≤ 50) :
    processSubscriptionPure now (some st) sub =
      (.notify current_aqi,
        { sub with last_notified_at := some now, last_aqi_level := some current_aqi }) := by
  unfold processSubscriptionPure
  rw [hex, hq, hc]
  simp only [Bool.false_eq_true, if_false, haqi, hp]
  rw [if_pos ⟨h50, hcur⟩]

/-- When all three filters pass, the resolver yields an AQI, and the
transition condition fails (including an unset previous index), the pipeline
refreshes `last_aqi_level` without notifying. -/
theorem processPure_noTransition (now : Nat) (st : AirQualityStation)
    (current_aqi : Int) (sub : Subscription)
    (hex : isExpired now sub = false)
    (hq : isQuietTime (hourOf now) sub.mute_start sub.mute_end = false)
    (hc : inCooldown now sub = false)
    (haqi : st.aqi = some current_aqi)
    (hno : ∀ p, sub.last_aqi_level = some p → ¬(p > 50 ∧ current_aqi ≤ 50)) :
    processSubscriptionPure now (some st) sub =
      (.noTransition current_aqi, { sub with last_aqi_level := some current_aqi }) := by
  unfold processSubscriptionPure
  rw [hex, hq, hc]
  simp only [Bool.false_eq_true, if_false, haqi]
  rcases hl : sub.last_aqi_level with _ | previous_aqi
  · rfl
  · simp only []
    rw [if_neg (hno previous_aqi hl)]

/-- C1: for a subscription that passes the expiration, quiet-hours and
cooldown filters and whose resolver lookup yields a station with a present AQI
`current_aqi`, a clean-air notification is sent iff `last_aqi_level` is set,
exceeds 50, and `current_aqi ≤ 50`; on notify `last_notified_at := now` and
`last_aqi_level := current_aqi`; otherwise `last_aqi_level := current_aqi` and
`last_notified_at` is untouched.  The final conjunct states the dispatch
itself: in the cycle, that subscription's evaluation appends a
`sendCleanAir` event exactly under the same condition. -/
theorem C1_clean_air_hysteresis (now : Nat) (st : AirQualityStation)
    (current_aqi : Int) (sub : Subscription)
    (hex : isExpired now sub = false)
    (hq : isQuietTime (hourOf now) sub.mute_start sub.mute_end = false)
    (hc : inCooldown now sub = false)
    (haqi : st.aqi = some current_aqi) :
    ((processSubscriptionPure now (some st) sub).1 = .notify current_aqi ↔
       ∃ p, sub.last_aqi_level = some p ∧ p > 50 ∧ current_aqi ≤ 50) ∧
    ((processSubscriptionPure now (some st) sub).1 = .notify current_aqi →
       (processSubscriptionPure now (some st) sub).2.last_notified_at = some now ∧
       (processSubscriptionPure now (some st) sub).2.last_aqi_level = some current_aqi) ∧
    ((processSubscriptionPure now (some st) sub).1 ≠ .notify current_aqi →
       (processSubscriptionPure now (some st) sub).2.last_aqi_level = some current_aqi ∧
       (processSubscriptionPure now (some st) sub).2.last_notified_at = sub.last_notified_at) ∧
    (∀ env cs, env.subRaises sub.id = false → env.resolve sub.location = some st →
       ((process_subscription now env cs sub).trace =
          cs.trace ++ [.evalSub sub.id, .sendCleanAir sub.user_id current_aqi] ↔
        ∃ p, sub.last_aqi_level = some p ∧ p > 50 ∧ current_aqi ≤ 50)) := by
  by_cases hcond : ∃ p, sub.last_aqi_level = some p ∧ p > 50 ∧ current_aqi ≤ 50
  · obtain ⟨p, hp, h50, hcur⟩ := hcond
    have heq := processPure_notify now st current_aqi p sub hex hq hc haqi hp h50 hcur
    refine ⟨?_, ?_, ?_, ?_⟩
    · rw [heq]; simp only [true_iff]; exact ⟨p, hp, h50, hcur⟩
    · rw [heq]; intro _; exact ⟨rfl, rfl⟩
    · rw [heq]; intro hne; exact absurd rfl hne
    · intro env cs hsr hres
      unfold process_subscription
      rw [hsr]
      simp only [Bool.false_eq_true, if_false, hres, heq]
      unfold send_clean_air_notification
      simp only [List.append_assoc, List.singleton_append, true_iff]
      exact ⟨p, hp, h50, hcur⟩
  · have hno : ∀ q, sub.last_aqi_level = some q → ¬(q > 50 ∧ current_aqi ≤ 50) := by
      intro q hq2 hqc
      exact hcond ⟨q, hq2, hqc.1, hqc.2⟩
    have heq := processPure_noTransition now st current_aqi sub hex hq hc haqi hno
    refine ⟨?_, ?_, ?_, ?_⟩
    · rw [heq]
      constructor
      · intro h
        exact absurd h (by simp)
      · exact fun h => absurd h hcond
    · rw [heq]; intro h; exact absurd h (by simp)
    · rw [heq]; intro _; exact ⟨rfl, rfl⟩
    · intro env cs hsr hres
      unfold process_subscription
      rw [hsr]
      simp only [Bool.false_eq_true, if_false, hres, heq]
      constructor
      · intro h
        have := List.append_cancel_left h
        simp at this
      · exact fun h => absurd h hcond

/-- C1 witness: at 10:00 with previous index 80, quiet hours 23-7, no prior
notification and a fresh reading of 40, the pipeline notifies, stamps
`last_notified_at`, refreshes `last_aqi_level`, and the cycle step dispatches
the clean-air message. -/
theorem C1_clean_air_hysteresis_witness :
    (processSubscriptionPure 36000 (some stGood) subW).1 = .notify 40 ∧
    (processSubscriptionPure 36000 (some stGood) subW).2.last_notified_at = some 36000 ∧
    (processSubscriptionPure 36000 (some stGood) subW).2.last_aqi_level = some 40 ∧
    (process_subscription 36000 envGood ⟨[], []⟩ subW).trace =
      [.evalSub 1, .sendCleanAir 7 40] := by
  have h := C1_clean_air_hysteresis 36000 stGood 40 subW (by decide) (by decide)
    (by decide) rfl
  have hcond : ∃ p, subW.last_aqi_level = some p ∧ p > 50 ∧ (40 : Int) ≤ 50 :=
    ⟨80, rfl, by decide, by decide⟩
  have h1 := h.1.mpr hcond
  have h2 := h.2.1 h1
  have h4 := (h.2.2.2 envGood ⟨[], []⟩ rfl rfl).mpr hcond
  exact ⟨h1, h2.1, h2.2, by simpa using h4⟩

/-- A subscription not in cooldown never takes the cooldown branch. -/
theorem processPure_ne_cooldown (now : Nat) (lookup : Option AirQualityStation)
    (sub : Subscription) (hc : inCooldown now sub = false) :
    (processSubscriptionPure now lookup sub).1 ≠ .cooldown := by
  unfold processSubscriptionPure
  rw [hc]
  split
  · simp
  split
  · simp
  simp only [Bool.false_eq_true, if_false]
  rcases lookup with _ | st
  · simp
  rcases hst : st.aqi with _ | current_aqi <;> simp only [hst]
  · simp
  rcases hl : sub.last_aqi_level with _ | previous_aqi <;> simp only [hl]
  · simp
  split <;> simp

/-- C3: the quiet-hours test is exactly the wrapping-window formula — for a
wrapping window (`mute_start > mute_end`) quiet iff `h ≥ mute_start` or
`h < mute_end`, otherwise quiet iff `mute_start ≤ h < mute_end`; a quiet
evaluation of a non-expired subscription is a no-op that leaves the whole
record (in particular `last_aqi_level`) untouched; and with
`mute_start = 23, mute_end = 7` hour 23 and hour 6 are quiet while hour 7 is
not. -/
theorem C3_quiet_hours (now : Nat) (sub : Subscription)
    (hex : isExpired now sub = false) :
    (∀ h mute_start mute_end : Nat,
       isQuietTime h mute_start mute_end = true ↔
         ((mute_start > mute_end ∧ (h ≥ mute_start ∨ h < mute_end)) ∨
          (mute_start ≤ mute_end ∧ mute_start ≤ h ∧ h < mute_end))) ∧
    (isQuietTime (hourOf now) sub.mute_start sub.mute_end = true →
       ∀ lookup, processSubscriptionPure now lookup sub = (.quiet, sub)) ∧
    (isQuietTime 23 23 7 = true ∧ isQuietTime 6 23 7 = true ∧
       isQuietTime 7 23 7 = false) := by
  refine ⟨?_, ?_, by decide⟩
  · intro h mute_start mute_end
    unfold isQuietTime
    by_cases hw : mute_start > mute_end <;> simp [hw] <;> omega
  · intro hq lookup
    unfold processSubscriptionPure
    rw [hex, hq]
    simp

/-- C3 witness: at 23:00 the fixture subscription (quiet hours 23-7, previous
index 80) is left exactly as it was, and the three concrete hour checks
evaluate as claimed. -/
theorem C3_quiet_hours_witness :
    processSubscriptionPure 82800 none subW = (.quiet, subW) ∧
    isQuietTime 23 23 7 = true ∧ isQuietTime 6 23 7 = true ∧
    isQuietTime 7 23 7 = false := by
  have h := C3_quiet_hours 82800 subW (by decide)
  exact ⟨h.2.1 (by decide) none, h.2.2⟩

/-- A subscription with no prior notification, or one notified at least four
hours ago, whose quiet-hours window is `[0, 0)`. -/
def subC4 : Subscription := ⟨1, 7, 0, none, 0, 0, some 0, some 80, true⟩

/-- C4: a subscription notified at instant `t` is a no-op (independent of the
resolver, with no state change) at any non-expired, non-quiet instant less
than four hours after `t`; in particular it is still suppressed one second
before the four-hour mark, and one second after the mark it is no longer the
cooldown branch that decides. -/
theorem C4_cooldown (t : Nat) (sub : Subscription)
    (hl : sub.last_notified_at = some t) :
    (∀ now, isExpired now sub = false →
       isQuietTime (hourOf now) sub.mute_start sub.mute_end = false →
       now - t < 4 * 3600 →
       ∀ lookup, processSubscriptionPure now lookup sub = (.cooldown, sub)) ∧
    (isExpired (t + 14399) sub = false →
       isQuietTime (hourOf (t + 14399)) sub.mute_start sub.mute_end = false →
       ∀ lookup, processSubscriptionPure (t + 14399) lookup sub = (.cooldown, sub)) ∧
    (isExpired (t + 14401) sub = false →
       isQuietTime (hourOf (t + 14401)) sub.mute_start sub.mute_end = false →
       ∀ lookup, (processSubscriptionPure (t + 14401) lookup sub).1 ≠ .cooldown) := by
  have cool : ∀ now, now - t < 4 * 3600 → inCooldown now sub = true := by
    intro now hlt
    unfold inCooldown
    rw [hl]
    exact decide_eq_true hlt
  have suppressed : ∀ now, isExpired now sub = false →
      isQuietTime (hourOf now) sub.mute_start sub.mute_end = false →
      now - t < 4 * 3600 →
      ∀ lookup, processSubscriptionPure now lookup sub = (.cooldown, sub) := by
    intro now hex hq hlt lookup
    unfold processSubscriptionPure
    rw [hex, hq, cool now hlt]
    simp
  refine ⟨suppressed, ?_, ?_⟩
  · intro hex hq
    exact suppressed (t + 14399) hex hq (by omega)
  · intro hex hq lookup
    refine processPure_ne_cooldown (t + 14401) lookup sub ?_
    unfold inCooldown
    rw [hl]
    simp

/-- C4 witness: with `last_notified_at = 0`, the evaluations at 100 seconds
and at 14399 seconds are suppressed by the cooldown, and the one at 14401
seconds is not decided by the cooldown branch. -/
theorem C4_cooldown_witness :
    processSubscriptionPure 100 none subC4 = (.cooldown, subC4) ∧
    processSubscriptionPure 14399 none subC4 = (.cooldown, subC4) ∧
    (processSubscriptionPure 14401 none subC4).1 ≠ .cooldown := by
  have h := C4_cooldown 0 subC4 rfl
  exact ⟨h.1 100 (by decide) (by decide) (by decide) none,
    h.2.1 (by decide) (by decide) none,
    h.2.2 (by decide) (by decide) none⟩

/-- A subscription whose `expiry_date` lies in the past. -/
def subE : Subscription := ⟨2, 9, 0, some 100, 0, 0, none, some 60, true⟩

/-- C6: when `expiry_date` is set and `now` is past it, the evaluation expires
the subscription — independent of the resolver it returns the expire branch
with only `is_active` cleared (no other field, in particular neither
`last_aqi_level` nor `last_notified_at`, changes), and in the cycle the item's
whole effect is the expiry dispatch plus the deactivated record; a
subscription without `expiry_date` never takes the expire branch. -/
theorem C6_expiration (now : Nat) (sub : Subscription) :
    (∀ e, sub.expiry_date = some e → now > e →
       (∀ lookup, processSubscriptionPure now lookup sub =
          (.expire, { sub with is_active := false })) ∧
       (∀ env cs, env.subRaises sub.id = false →
          process_subscription now env cs sub =
            { done := cs.done ++ [{ sub with is_active := false }],
              trace := cs.trace ++ [.evalSub sub.id, .sendExpiry sub.user_id sub.id] })) ∧
    (sub.expiry_date = none →
       ∀ lookup, (processSubscriptionPure now lookup sub).1 ≠ .expire) := by
  constructor
  · intro e he hgt
    have hex : isExpired now sub = true := by
      unfold isExpired
      rw [he]
      exact decide_eq_true hgt
    have hpure : ∀ lookup, processSubscriptionPure now lookup sub =
        (.expire, { sub with is_active := false }) := by
      intro lookup
      unfold processSubscriptionPure
      rw [hex]
      simp
    refine ⟨hpure, ?_⟩
    intro env cs hsr
    unfold process_subscription
    rw [hsr]
    simp only [Bool.false_eq_true, if_false, hpure]
    simp [List.append_assoc]
  · intro hnone lookup
    refine processPure_ne_expire now lookup sub ?_
    unfold isExpired
    rw [hnone]

/-- C6 witness: the fixture subscription expired at instant 100 is expired at
instant 200 with exactly the claimed record and trace, and the never-expiring
fixture subscription does not take the expire branch. -/
theorem C6_expiration_witness :
    processSubscriptionPure 200 none subE = (.expire, { subE with is_active := false }) ∧
    process_subscription 200 envGood ⟨[], []⟩ subE =
      { done := [{ subE with is_active := false }],
        trace := [.evalSub 2, .sendExpiry 9 2] } ∧
    (processSubscriptionPure 200 none subW).1 ≠ .expire := by
  have h := (C6_expiration 200 subE).1 100 rfl (by decide)
  refine ⟨h.1 none, by simpa using h.2 envGood ⟨[], []⟩ rfl, ?_⟩
  exact (C6_expiration 200 subW).2 rfl none

/-- C10: with `mute_start = mute_end` the quiet window is empty — no hour is
quiet and the quiet branch never fires, so equal bounds mean "no quiet hours",
not "always quiet". -/
theorem C10_empty_quiet_window (sub : Subscription)
    (hm : sub.mute_start = sub.mute_end) :
    (∀ h : Nat, isQuietTime h sub.mute_start sub.mute_end = false) ∧
    (∀ now lookup, (processSubscriptionPure now lookup sub).1 ≠ .quiet) := by
  have hq : ∀ h : Nat, isQuietTime h sub.mute_start sub.mute_end = false := by
    intro h
    rw [hm]
    unfold isQuietTime
    simp
  exact ⟨hq, fun now lookup => processPure_ne_quiet now lookup sub (hq (hourOf now))⟩

/-- C10 witness: with window `[0, 0)` hour 5 is not quiet and a concrete
evaluation does not take the quiet branch. -/
theorem C10_empty_quiet_window_witness :
    isQuietTime 5 subC4.mute_start subC4.mute_end = false ∧
    (processSubscriptionPure 7200 none subC4).1 ≠ .quiet := by
  have h := C10_empty_quiet_window subC4 rfl
  exact ⟨h.1 5, h.2 7200 none⟩

/-- C9: an expired safety-net session is deleted silently, and a session whose
backing subscription is gone is deleted silently; in both branches the trace
gains no dispatch event and no other state — in particular the subscription
list — changes. -/
theorem C9_session_cleanup (now : Nat) (env : Env) (ps : Phase2State)
    (sess : SafetyNetSession) (hnf : env.sessRaises sess.id = false) :
    (now > sess.session_expiry →
       process_safety_net_session now env ps sess =
         { subs := ps.subs,
           sessions := ps.sessions.filter (fun t => decide (t.id ≠ sess.id)),
           trace := ps.trace ++ [.evalSession sess.id] }) ∧
    (¬ now > sess.session_expiry →
       ps.subs.find? (fun sub => sub.id == sess.subscription_id) = none →
       process_safety_net_session now env ps sess =
         { subs := ps.subs,
           sessions := ps.sessions.filter (fun t => decide (t.id ≠ sess.id)),
           trace := ps.trace ++ [.evalSession sess.id] }) := by
  constructor
  · intro hgt
    unfold process_safety_net_session
    rw [hnf]
    simp only [Bool.false_eq_true, if_false]
    rw [if_pos hgt]
  · intro hgt hfind
    unfold process_safety_net_session
    rw [hnf]
    simp only [Bool.false_eq_true, if_false]
    rw [if_neg hgt, hfind]

/-- A safety-net session backed by subscription 1 with baseline 30. -/
def sessA : SafetyNetSession := ⟨11, 7, 1, 30, 1000⟩

/-- An orphan safety-net session: subscription 99 does not exist. -/
def sessB : SafetyNetSession := ⟨12, 7, 99, 30, 100000⟩

/-- C9 witness: at instant 2000 the session expiring at 1000 is deleted with
no dispatch; at instant 10 the orphan session is deleted with no dispatch. -/
theorem C9_session_cleanup_witness :
    process_safety_net_session 2000 envGood ⟨[subW], [sessA], []⟩ sessA =
      { subs := [subW], sessions := [], trace := [.evalSession 11] } ∧
    process_safety_net_session 10 envGood ⟨[subW], [sessB], []⟩ sessB =
      { subs := [subW], sessions := [], trace := [.evalSession 12] } := by
  constructor
  · have h := (C9_session_cleanup 2000 envGood ⟨[subW], [sessA], []⟩ sessA rfl).1
      (by decide)
    simpa using h
  · have h := (C9_session_cleanup 10 envGood ⟨[subW], [sessB], []⟩ sessB rfl).2
      (by decide) rfl
    simpa using h


/-- An `evalSession` marker alone carries no alert. -/
theorem alerts_eval_only (i sid : Nat) :
    ([Event.evalSession sid]).countP (isAlertFor i) = 0 := rfl

/-- An `evalSession` marker followed by a caught-exception marker carries no
alert. -/
theorem alerts_eval_caught (i sid x : Nat) :
    (Event.evalSession sid :: [Event.caughtSession x]).countP (isAlertFor i) = 0 := rfl

/-- An `evalSession` marker followed by one bad-air alert for session `sid`
carries exactly one alert for `sid` and none for any other id. -/
theorem alerts_eval_bad (i sid u : Nat) (aq : Int) :
    (Event.evalSession sid :: [Event.sendBadAir u sid aq]).countP (isAlertFor i)
      = if sid = i then 1 else 0 := by
  by_cases h : sid = i <;> simp [List.countP_cons, isAlertFor, h]

/-- One safety-net step appends exactly one `evalSession` marker followed by
session-payload events, never touches the subscription list, only removes
sessions, produces at most one alert — and only for its own session id — and
deletes the session whenever it alerts. -/
theorem sessStep_spec (now : Nat) (env : Env) (ps : Phase2State)
    (sess : SafetyNetSession) :
    ∃ c, (process_safety_net_session now env ps sess).trace
        = ps.trace ++ (Event.evalSession sess.id :: c) ∧
      c.all isSessPayload = true ∧
      (process_safety_net_session now env ps sess).subs = ps.subs ∧
      List.Sublist (process_safety_net_session now env ps sess).sessions ps.sessions ∧
      (∀ i, (Event.evalSession sess.id :: c).countP (isAlertFor i)
            ≤ if sess.id = i then 1 else 0) ∧
      (∀ i, 0 < (Event.evalSession sess.id :: c).countP (isAlertFor i) →
            ∀ t ∈ (process_safety_net_session now env ps sess).sessions, t.id ≠ i) := by
  unfold process_safety_net_session
  by_cases hf : env.sessRaises sess.id = true
  · simp only [hf, if_true]
    refine ⟨[.caughtSession sess.id], ?_, ?_, ?_, ?_, ?_, ?_⟩
    · simp
    · trivial
    · trivial
    · exact List.Sublist.refl _
    · intro i
      rw [alerts_eval_caught]
      exact Nat.zero_le _
    · intro i hi
      rw [alerts_eval_caught] at hi
      exact absurd hi (by simp)
  · rw [Bool.not_eq_true] at hf
    simp only [hf, Bool.false_eq_true, if_false]
    by_cases hgt : now > sess.session_expiry
    · rw [if_pos hgt]
      refine ⟨[], ?_, ?_, ?_, ?_, ?_, ?_⟩
      · simp
      · trivial
      · trivial
      · exact List.filter_sublist _
      · intro i
        rw [alerts_eval_only]
        exact Nat.zero_le _
      · intro i hi
        rw [alerts_eval_only] at hi
        exact absurd hi (by simp)
    · rw [if_neg hgt]
      rcases hfind : ps.subs.find? (fun sub => sub.id == sess.subscription_id) with _ | sub
      · simp only [hfind]
        refine ⟨[], ?_, ?_, ?_, ?_, ?_, ?_⟩
        · simp
        · trivial
        · trivial
        · exact List.filter_sublist _
        · intro i
          rw [alerts_eval_only]
          exact Nat.zero_le _
        · intro i hi
          rw [alerts_eval_only] at hi
          exact absurd hi (by simp)
      · simp only [hfind]
        rcases hres : env.resolve sub.location with _ | st
        · simp only [hres]
          refine ⟨[], ?_, ?_, ?_, ?_, ?_, ?_⟩
          · simp
          · trivial
          · trivial
          · exact List.Sublist.refl _
          · intro i
            rw [alerts_eval_only]
            exact Nat.zero_le _
          · intro i hi
            rw [alerts_eval_only] at hi
            exact absurd hi (by simp)
        · simp only [hres]
          rcases haqi : st.aqi with _ | current_aqi
          · simp only [haqi]
            refine ⟨[], ?_, ?_, ?_, ?_, ?_, ?_⟩
            · simp
            · trivial
            · trivial
            · exact List.Sublist.refl _
            · intro i
              rw [alerts_eval_only]
              exact Nat.zero_le _
            · intro i hi
              rw [alerts_eval_only] at hi
              exact absurd hi (by simp)
          · simp only [haqi]
            by_cases hbad : current_aqi > 75 ∨ current_aqi > sess.start_aqi + 40
            · rw [if_pos hbad]
              refine ⟨[.sendBadAir sess.user_id sess.id current_aqi], ?_, ?_, ?_, ?_, ?_, ?_⟩
              · simp
              · trivial
              · trivial
              · exact List.filter_sublist _
              · intro i
                rw [alerts_eval_bad]
              · intro i hi t ht
                rw [alerts_eval_bad] at hi
                by_cases hid : sess.id = i
                · rw [List.mem_filter] at ht
                  have hne := of_decide_eq_true ht.2
                  omega
                · rw [if_neg hid] at hi
                  exact absurd hi (by simp)
            · rw [if_neg hbad]
              refine ⟨[], ?_, ?_, ?_, ?_, ?_, ?_⟩
              · simp
              · trivial
              · trivial
              · exact List.Sublist.refl _
              · intro i
                rw [alerts_eval_only]
                exact Nat.zero_le _
              · intro i hi
                rw [alerts_eval_only] at hi
                exact absurd hi (by simp)

/-- Alert counting distributes over trace concatenation. -/
theorem alertsFor_append (i : Nat) (a b : List Event) :
    alertsFor i (a ++ b) = alertsFor i a + alertsFor i b := by
  unfold alertsFor
  exact List.countP_append _ a b

/-- Subscription-payload events are neither evaluation markers, commits, nor
bad-air alerts. -/
theorem subPayload_facts (c : List Event) (h : c.all isSubPayload = true) :
    c.filterMap evalSubIdOf = [] ∧ c.filterMap evalSessionIdOf = [] ∧
    c.countP isCommitEvent = 0 ∧ (∀ i, c.countP (isAlertFor i) = 0) := by
  induction c with
  | nil => exact ⟨rfl, rfl, rfl, fun _ => rfl⟩
  | cons e c ih =>
    rw [List.all_cons, Bool.and_eq_true] at h
    obtain ⟨h1, h2, h3, h4⟩ := ih h.2
    have he := h.1
    cases e with
    | caughtSub a =>
      refine ⟨?_, ?_, ?_, ?_⟩
      · simp [List.filterMap_cons, evalSubIdOf, h1]
      · simp [List.filterMap_cons, evalSessionIdOf, h2]
      · simp [List.countP_cons, isCommitEvent, h3]
      · intro i
        simp [List.countP_cons, isAlertFor, h4 i]
    | sendExpiry a b =>
      refine ⟨?_, ?_, ?_, ?_⟩
      · simp [List.filterMap_cons, evalSubIdOf, h1]
      · simp [List.filterMap_cons, evalSessionIdOf, h2]
      · simp [List.countP_cons, isCommitEvent, h3]
      · intro i
        simp [List.countP_cons, isAlertFor, h4 i]
    | sendCleanAir a q =>
      refine ⟨?_, ?_, ?_, ?_⟩
      · simp [List.filterMap_cons, evalSubIdOf, h1]
      · simp [List.filterMap_cons, evalSessionIdOf, h2]
      · simp [List.countP_cons, isCommitEvent, h3]
      · intro i
        simp [List.countP_cons, isAlertFor, h4 i]
    | evalSub a => simp [isSubPayload] at he
    | evalSession a => simp [isSubPayload] at he
    | caughtSession a => simp [isSubPayload] at he
    | sendBadAir a b q => simp [isSubPayload] at he
    | commit => simp [isSubPayload] at he

/-- Session-payload events are neither evaluation markers nor commits. -/
theorem sessPayload_facts (c : List Event) (h : c.all isSessPayload = true) :
    c.filterMap evalSubIdOf = [] ∧ c.filterMap evalSessionIdOf = [] ∧
    c.countP isCommitEvent = 0 := by
  induction c with
  | nil => exact ⟨rfl, rfl, rfl⟩
  | cons e c ih =>
    rw [List.all_cons, Bool.and_eq_true] at h
    obtain ⟨h1, h2, h3⟩ := ih h.2
    have he := h.1
    cases e with
    | caughtSession a =>
      refine ⟨?_, ?_, ?_⟩ <;>
        simp [List.filterMap_cons, List.countP_cons, evalSubIdOf, evalSessionIdOf,
          isCommitEvent, h1, h2, h3]
    | sendBadAir a b q =>
      refine ⟨?_, ?_, ?_⟩ <;>
        simp [List.filterMap_cons, List.countP_cons, evalSubIdOf, evalSessionIdOf,
          isCommitEvent, h1, h2, h3]
    | evalSub a => simp [isSessPayload] at he
    | evalSession a => simp [isSessPayload] at he
    | caughtSub a => simp [isSessPayload] at he
    | sendExpiry a b => simp [isSessPayload] at he
    | sendCleanAir a q => simp [isSessPayload] at he
    | commit => simp [isSessPayload] at he

/-- One subscription step appends exactly one `evalSub` marker followed by
subscription-payload events. -/
theorem subStep_trace (now : Nat) (env : Env) (cs : CycleState)
    (sub : Subscription) :
    ∃ c, (process_subscription now env cs sub).trace
        = cs.trace ++ (Event.evalSub sub.id :: c) ∧ c.all isSubPayload = true := by
  unfold process_subscription
  by_cases hf : env.subRaises sub.id = true
  · simp only [hf, if_true]
    exact ⟨[.caughtSub sub.id], by simp, by simp [isSubPayload]⟩
  · rw [Bool.not_eq_true] at hf
    simp only [hf, Bool.false_eq_true, if_false]
    rcases hp : processSubscriptionPure now (env.resolve sub.location) sub with ⟨r, updated⟩
    cases r with
    | expire =>
      exact ⟨[.sendExpiry sub.user_id sub.id], by simp, by simp [isSubPayload]⟩
    | notify aq =>
      exact ⟨[.sendCleanAir sub.user_id aq], by simp [send_clean_air_notification],
        by simp [isSubPayload]⟩
    | quiet => exact ⟨[], rfl, rfl⟩
    | cooldown => exact ⟨[], rfl, rfl⟩
    | noStation => exact ⟨[], rfl, rfl⟩
    | noAqi => exact ⟨[], rfl, rfl⟩
    | noTransition aq => exact ⟨[], rfl, rfl⟩

/-- The subscription loop appends exactly one `evalSub` marker per loaded
subscription, in order, and no `evalSession`, no commit, and no bad-air
alert. -/
theorem phase1_trace (now : Nat) (env : Env) :
    ∀ (l : List Subscription) (cs : CycleState),
      ∃ c, (l.foldl (process_subscription now env) cs).trace = cs.trace ++ c ∧
        c.filterMap evalSubIdOf = l.map (fun s => s.id) ∧
        c.filterMap evalSessionIdOf = [] ∧
        c.countP isCommitEvent = 0 ∧
        (∀ i, c.countP (isAlertFor i) = 0) := by
  intro l
  induction l with
  | nil =>
    intro cs
    exact ⟨[], by simp, rfl, rfl, rfl, fun _ => rfl⟩
  | cons s l ih =>
    intro cs
    obtain ⟨c₁, ht1, hall⟩ := subStep_trace now env cs s
    obtain ⟨c₂, ht2, h2a, h2b, h2c, h2d⟩ := ih (process_subscription now env cs s)
    obtain ⟨p1, p2, p3, p4⟩ := subPayload_facts c₁ hall
    refine ⟨(Event.evalSub s.id :: c₁) ++ c₂, ?_, ?_, ?_, ?_, ?_⟩
    · rw [List.foldl_cons, ht2, ht1, List.append_assoc]
    · rw [List.filterMap_append, List.filterMap_cons]
      simp [evalSubIdOf, p1, h2a]
    · rw [List.filterMap_append, List.filterMap_cons]
      simp [evalSessionIdOf, p2, h2b]
    · rw [List.countP_append, List.countP_cons]
      simp [isCommitEvent, p3, h2c]
    · intro i
      rw [List.countP_append, List.countP_cons]
      simp [isAlertFor, p4 i, h2d i]

/-- The safety-net loop never touches the subscription list, only removes
sessions, produces at most one alert per occurrence of a session id in the
processed list, and keeps a session deleted once it alerted for it. -/
theorem phase2_fold_spec (now : Nat) (env : Env) :
    ∀ (l : List SafetyNetSession) (ps : Phase2State),
      ((l.foldl (process_safety_net_session now env) ps).subs = ps.subs) ∧
      List.Sublist (l.foldl (process_safety_net_session now env) ps).sessions
        ps.sessions ∧
      (∀ i, (l.foldl (process_safety_net_session now env) ps).trace.countP (isAlertFor i)
            ≤ ps.trace.countP (isAlertFor i) + l.countP (fun s => s.id == i)) ∧
      (∀ i, ps.trace.countP (isAlertFor i)
              < (l.foldl (process_safety_net_session now env) ps).trace.countP (isAlertFor i) →
            ∀ t ∈ (l.foldl (process_safety_net_session now env) ps).sessions, t.id ≠ i) := by
  intro l
  induction l with
  | nil =>
    intro ps
    refine ⟨rfl, List.Sublist.refl _, fun i => by simp, fun i h => ?_⟩
    exact absurd h (lt_irrefl _)
  | cons s l ih =>
    intro ps
    obtain ⟨c, htr, _hall, hsubs, hsub, hcount, hexcl⟩ := sessStep_spec now env ps s
    obtain ⟨ih1, ih2, ih3, ih4⟩ := ih (process_safety_net_session now env ps s)
    have e1 : ∀ i, (process_safety_net_session now env ps s).trace.countP (isAlertFor i)
        = ps.trace.countP (isAlertFor i)
          + (Event.evalSession s.id :: c).countP (isAlertFor i) := by
      intro i
      rw [htr, List.countP_append]
    refine ⟨?_, ?_, ?_, ?_⟩
    · rw [List.foldl_cons, ih1, hsubs]
    · exact List.Sublist.trans ih2 hsub
    · intro i
      have h3 := ih3 i
      have hc := hcount i
      have he := e1 i
      have hif : (if (s.id == i) = true then 1 else 0) = (if s.id = i then 1 else 0) := by
        by_cases hid : s.id = i <;> simp [hid]
      rw [List.foldl_cons, List.countP_cons, hif]
      omega
    · intro i hlt t ht
      rw [List.foldl_cons] at hlt ht
      by_cases hchunk : 0 < (Event.evalSession s.id :: c).countP (isAlertFor i)
      · exact hexcl i hchunk t (ih2.subset ht)
      · have hz : (Event.evalSession s.id :: c).countP (isAlertFor i) = 0 := by omega
        have he := e1 i
        exact ih4 i (by omega) t ht

/-- Counting sessions with a given id is counting that id among the mapped
ids. -/
theorem countP_id_eq_count_map (i : Nat) (l : List SafetyNetSession) :
    l.countP (fun s => s.id == i) = (l.map (fun s => s.id)).count i := by
  induction l with
  | nil => rfl
  | cons s l ih => simp [List.countP_cons, List.count_cons, ih]

/-- With pairwise-distinct session ids, at most one loaded session carries a
given id. -/
theorem loaded_count_le_one (now : Nat) (store : Store) (i : Nat)
    (h : (store.sessions.map (fun s => s.id)).Nodup) :
    (loadedSessions now store).countP (fun s => s.id == i) ≤ 1 := by
  have h1 : (loadedSessions now store).countP (fun s => s.id == i)
      ≤ store.sessions.countP (fun s => s.id == i) :=
    (List.filter_sublist _).countP_le _
  have h2 := countP_id_eq_count_map i store.sessions
  have h3 := List.nodup_iff_count_le_one.mp h i
  omega

/-- One cycle only removes sessions, produces at most as many alerts for a
given session id as there are loaded sessions with that id, and ends with the
session deleted whenever it alerted for it. -/
theorem cycle_alert_spec (now : Nat) (env : Env) (store : Store) (i : Nat) :
    List.Sublist (check_subscriptions now env store).1.sessions store.sessions ∧
    alertsFor i (check_subscriptions now env store).2
      ≤ (loadedSessions now store).countP (fun s => s.id == i) ∧
    (0 < alertsFor i (check_subscriptions now env store).2 →
      ∀ t ∈ (check_subscriptions now env store).1.sessions, t.id ≠ i) := by
  have hp1 : (runPhase1 now env store).trace.countP (isAlertFor i) = 0 := by
    obtain ⟨c, htr, _, _, _, hal⟩ := phase1_trace now env (loadedSubs store) ⟨[], []⟩
    unfold runPhase1
    rw [htr]
    simpa using hal i
  obtain ⟨h1, h2, h3, h4⟩ := phase2_fold_spec now env (loadedSessions now store)
    ⟨subsAfterPhase1 now env store, store.sessions, (runPhase1 now env store).trace⟩
  dsimp only at h2 h3 h4
  have hrp : runPhase2 now env store
      = (loadedSessions now store).foldl (process_safety_net_session now env)
          ⟨subsAfterPhase1 now env store, store.sessions,
            (runPhase1 now env store).trace⟩ := rfl
  rw [← hrp] at h2 h3 h4
  have htail : alertsFor i (check_subscriptions now env store).2
      = (runPhase2 now env store).trace.countP (isAlertFor i) := by
    unfold check_subscriptions
    rw [alertsFor_append]
    simp [alertsFor, List.countP_cons, isAlertFor]
  have hsess : (check_subscriptions now env store).1.sessions
      = (runPhase2 now env store).sessions := rfl
  refine ⟨hsess ▸ h2, ?_, ?_⟩
  · rw [htail]
    have := h3 i
    omega
  · intro hpos t ht
    rw [htail] at hpos
    rw [hsess] at ht
    exact h4 i (by omega) t ht

/-- Once no session with id `i` remains in the store, no later tick ever
alerts for `i`, and `i` never reappears. -/
theorem runTicks_dead (i : Nat) :
    ∀ (ticks : List (Nat × Env)) (store : Store),
      (∀ t ∈ store.sessions, t.id ≠ i) →
      alertsFor i (runTicks ticks store).2 = 0 ∧
      (∀ t ∈ (runTicks ticks store).1.sessions, t.id ≠ i) := by
  intro ticks
  induction ticks with
  | nil =>
    intro store h
    exact ⟨rfl, h⟩
  | cons tk ticks ih =>
    intro store h
    obtain ⟨hsub, hle, _⟩ := cycle_alert_spec tk.1 tk.2 store i
    have hload0 : (loadedSessions tk.1 store).countP (fun s => s.id == i) = 0 := by
      rw [List.countP_eq_zero]
      intro s hs
      have hmem : s ∈ store.sessions := (List.mem_filter.mp hs).1
      simpa using h s hmem
    have hcyc0 : alertsFor i (check_subscriptions tk.1 tk.2 store).2 = 0 := by omega
    have hnext : ∀ t ∈ (check_subscriptions tk.1 tk.2 store).1.sessions, t.id ≠ i :=
      fun t ht => h t (hsub.subset ht)
    obtain ⟨ih1, ih2⟩ := ih (check_subscriptions tk.1 tk.2 store).1 hnext
    constructor
    · show alertsFor i ((check_subscriptions tk.1 tk.2 store).2
          ++ (runTicks ticks (check_subscriptions tk.1 tk.2 store).1).2) = 0
      rw [alertsFor_append, hcyc0, ih1]
    · exact ih2

/-- Under pairwise-distinct session ids, a whole scheduler run alerts at most
once for any given session id. -/
theorem runTicks_le_one (i : Nat) :
    ∀ (ticks : List (Nat × Env)) (store : Store),
      (store.sessions.map (fun s => s.id)).Nodup →
      alertsFor i (runTicks ticks store).2 ≤ 1 := by
  intro ticks
  induction ticks with
  | nil =>
    intro store _
    exact Nat.zero_le _
  | cons tk ticks ih =>
    intro store hnodup
    obtain ⟨hsub, hle, hexcl⟩ := cycle_alert_spec tk.1 tk.2 store i
    have hone := loaded_count_le_one tk.1 store i hnodup
    have hnodup2 : ((check_subscriptions tk.1 tk.2 store).1.sessions.map
        (fun s => s.id)).Nodup := hnodup.sublist (hsub.map _)
    have hshape : alertsFor i (runTicks (tk :: ticks) store).2
        = alertsFor i (check_subscriptions tk.1 tk.2 store).2
          + alertsFor i (runTicks ticks (check_subscriptions tk.1 tk.2 store).1).2 := by
      show alertsFor i ((check_subscriptions tk.1 tk.2 store).2
          ++ (runTicks ticks (check_subscriptions tk.1 tk.2 store).1).2) = _
      rw [alertsFor_append]
    by_cases hpos : 0 < alertsFor i (check_subscriptions tk.1 tk.2 store).2
    · have hrest := (runTicks_dead i ticks (check_subscriptions tk.1 tk.2 store).1
        (hexcl hpos)).1
      omega
    · have hrest := ih (check_subscriptions tk.1 tk.2 store).1 hnodup2
      omega

/-- A station reporting an unhealthy index of 80. -/
def stBad : AirQualityStation := ⟨2, some 80, some 0⟩

/-- An environment whose resolver always finds `stBad` and that injects no
fault. -/
def envBad : Env := ⟨fun _ => some stBad, fun _ => false, fun _ => false⟩

/-- C2: a safety-net session evaluated before its expiry, whose backing
subscription exists and whose resolver lookup yields AQI `current_aqi`,
dispatches a bad-air alert iff `current_aqi > 75` or
`current_aqi > start_aqi + 40`; on dispatch the session is deleted in the same
step, and consequently over any sequence of scheduler ticks (with
pairwise-distinct session ids, the primary-key invariant) a given session id
produces at most one alert, no matter how many later observations exceed the
threshold. -/
theorem C2_safety_net_latch :
    (∀ (now : Nat) (env : Env) (ps : Phase2State) (sess : SafetyNetSession)
       (sub : Subscription) (st : AirQualityStation) (current_aqi : Int),
       env.sessRaises sess.id = false →
       ¬ now > sess.session_expiry →
       ps.subs.find? (fun s => s.id == sess.subscription_id) = some sub →
       env.resolve sub.location = some st →
       st.aqi = some current_aqi →
       ((current_aqi > 75 ∨ current_aqi > sess.start_aqi + 40) →
          process_safety_net_session now env ps sess =
            { subs := ps.subs,
              sessions := ps.sessions.filter (fun t => decide (t.id ≠ sess.id)),
              trace := ps.trace ++ [.evalSession sess.id,
                .sendBadAir sess.user_id sess.id current_aqi] }) ∧
       (¬(current_aqi > 75 ∨ current_aqi > sess.start_aqi + 40) →
          process_safety_net_session now env ps sess =
            { ps with trace := ps.trace ++ [.evalSession sess.id] })) ∧
    (∀ (ticks : List (Nat × Env)) (store : Store) (i : Nat),
       (store.sessions.map (fun s => s.id)).Nodup →
       alertsFor i (runTicks ticks store).2 ≤ 1) := by
  constructor
  · intro now env ps sess sub st current_aqi hnf hgt hfind hres haqi
    unfold process_safety_net_session
    rw [hnf]
    simp only [Bool.false_eq_true, if_false]
    rw [if_neg hgt]
    simp only [hfind, hres, haqi]
    constructor
    · intro hbad
      rw [if_pos hbad]
      simp
    · intro hbad
      rw [if_neg hbad]
  · exact fun ticks store i h => runTicks_le_one i ticks store h

/-- C2 witness: with a fresh reading of 80 (above both thresholds for baseline
30), the session alerts and is deleted in the same step; and the
single-tick run on that store alerts at most once for the session id. -/
theorem C2_safety_net_latch_witness :
    process_safety_net_session 10 envBad ⟨[subW], [sessA], []⟩ sessA =
      { subs := [subW], sessions := [],
        trace := [.evalSession 11, .sendBadAir 7 11 80] } ∧
    alertsFor 11 (runTicks [(10, envBad)] ⟨[subW], [sessA]⟩).2 ≤ 1 := by
  constructor
  · have h := (C2_safety_net_latch.1 10 envBad ⟨[subW], [sessA], []⟩ sessA subW stBad 80
      rfl (by decide) rfl rfl rfl).1 (by decide)
    simpa using h
  · exact C2_safety_net_latch.2 [(10, envBad)] ⟨[subW], [sessA]⟩ 11 (by simp)

/-- The safety-net loop appends exactly one `evalSession` marker per loaded
session, in order, and no `evalSub` and no commit. -/
theorem phase2_trace (now : Nat) (env : Env) :
    ∀ (l : List SafetyNetSession) (ps : Phase2State),
      ∃ c, (l.foldl (process_safety_net_session now env) ps).trace = ps.trace ++ c ∧
        c.filterMap evalSessionIdOf = l.map (fun s => s.id) ∧
        c.filterMap evalSubIdOf = [] ∧
        c.countP isCommitEvent = 0 := by
  intro l
  induction l with
  | nil =>
    intro ps
    exact ⟨[], by simp, rfl, rfl, rfl⟩
  | cons s l ih =>
    intro ps
    obtain ⟨c₁, ht1, hall, _, _, _, _⟩ := sessStep_spec now env ps s
    obtain ⟨c₂, ht2, h2a, h2b, h2c⟩ := ih (process_safety_net_session now env ps s)
    obtain ⟨p1, p2, p3⟩ := sessPayload_facts c₁ hall
    refine ⟨(Event.evalSession s.id :: c₁) ++ c₂, ?_, ?_, ?_, ?_⟩
    · rw [List.foldl_cons, ht2, ht1, List.append_assoc]
    · rw [List.filterMap_append, List.filterMap_cons]
      simp [evalSessionIdOf, p2, h2a]
    · rw [List.filterMap_append, List.filterMap_cons]
      simp [evalSubIdOf, p1, h2b]
    · rw [List.countP_append, List.countP_cons]
      simp [isCommitEvent, p3, h2c]

/-- C8: whatever per-item unexpected exceptions the environment injects, and
whatever the resolver returns, one cycle evaluates exactly the loaded active
subscriptions, each exactly once and in order, and then exactly the loaded
unexpired safety-net sessions, each exactly once and in order: a fault in one
item is caught at the per-item boundary and never prevents the remaining
items' evaluation. -/
theorem C8_fault_isolation (now : Nat) (env : Env) (store : Store) :
    ((check_subscriptions now env store).2.filterMap evalSubIdOf =
       (loadedSubs store).map (fun s => s.id)) ∧
    ((check_subscriptions now env store).2.filterMap evalSessionIdOf =
       (loadedSessions now store).map (fun s => s.id)) := by
  obtain ⟨c₁, ht1, h1a, h1b, _, _⟩ := phase1_trace now env (loadedSubs store) ⟨[], []⟩
  obtain ⟨c₂, ht2, h2a, h2b, _⟩ := phase2_trace now env (loadedSessions now store)
    ⟨subsAfterPhase1 now env store, store.sessions, (runPhase1 now env store).trace⟩
  dsimp only at ht2
  have hp1 : (runPhase1 now env store).trace = c₁ := by
    unfold runPhase1
    rw [ht1]
    exact List.nil_append c₁
  have hrp : (runPhase2 now env store).trace
      = (runPhase1 now env store).trace ++ c₂ := ht2
  have hfin : (check_subscriptions now env store).2
      = (c₁ ++ c₂) ++ [Event.commit] := by
    show (runPhase2 now env store).trace ++ [Event.commit] = _
    rw [hrp, hp1]
  rw [hfin]
  constructor
  · rw [List.filterMap_append, List.filterMap_append]
    simp [h1a, h2b, evalSubIdOf]
  · rw [List.filterMap_append, List.filterMap_append]
    simp [h1b, h2a, evalSessionIdOf]

/-- A commit-free prefix followed by one final commit satisfies the
"every evaluation precedes every commit" trace predicate. -/
theorem evalsBeforeCommits_concat (l : List Event)
    (h : l.countP isCommitEvent = 0) :
    evalsBeforeCommits (l ++ [Event.commit]) = true := by
  induction l with
  | nil => rfl
  | cons e l ih =>
    rw [List.countP_cons] at h
    have he : isCommitEvent e = false := by
      by_cases hc : isCommitEvent e = true
      · rw [hc] at h
        simp at h
      · rwa [Bool.not_eq_true] at hc
    rw [he] at h
    simp only [Bool.false_eq_true, if_false] at h
    show evalsBeforeCommits (e :: (l ++ [Event.commit])) = true
    unfold evalsBeforeCommits
    rw [he]
    simp only [Bool.false_eq_true, if_false]
    exact ih (by omega)

/-- C5: in every cycle there is exactly one `db.commit()`, it is the last
action of the cycle, and every evaluation of a subscription or session
precedes every commit — no mutation of the cycle is committed before all items
have been evaluated.  (The mid-cycle commit in the source's auto safety-net
block, line 326, is unreachable: see `send_clean_air_notification`.) -/
theorem C5_batched_commit (now : Nat) (env : Env) (store : Store) :
    (check_subscriptions now env store).2.countP isCommitEvent = 1 ∧
    (check_subscriptions now env store).2.getLast? = some Event.commit ∧
    evalsBeforeCommits (check_subscriptions now env store).2 = true := by
  obtain ⟨c₁, ht1, _, _, h1c, _⟩ := phase1_trace now env (loadedSubs store) ⟨[], []⟩
  obtain ⟨c₂, ht2, _, _, h2c⟩ := phase2_trace now env (loadedSessions now store)
    ⟨subsAfterPhase1 now env store, store.sessions, (runPhase1 now env store).trace⟩
  dsimp only at ht2
  have hp1 : (runPhase1 now env store).trace = c₁ := by
    unfold runPhase1
    rw [ht1]
    exact List.nil_append c₁
  have hrp : (runPhase2 now env store).trace
      = (runPhase1 now env store).trace ++ c₂ := ht2
  have hfin : (check_subscriptions now env store).2
      = (c₁ ++ c₂) ++ [Event.commit] := by
    show (runPhase2 now env store).trace ++ [Event.commit] = _
    rw [hrp, hp1]
  rw [hfin]
  refine ⟨?_, List.getLast?_concat _, ?_⟩
  · rw [List.countP_append, List.countP_append]
    simp [h1c, h2c, isCommitEvent]
  · refine evalsBeforeCommits_concat _ ?_
    rw [List.countP_append]
    omega

/-- `ORDER BY distance LIMIT 1` over an accumulator never turns a row into no
row: the fold is `none` only when it started from `none` on an empty list. -/
theorem foldl_pickNearer_eq_none (d : AirQualityStation → ℚ) :
    ∀ (l : List AirQualityStation) (acc : Option AirQualityStation),
      l.foldl (pickNearer d) acc = none ↔ (acc = none ∧ l = []) := by
  intro l
  induction l with
  | nil => intro acc; simp
  | cons s l ih =>
    intro acc
    rw [List.foldl_cons]
    constructor
    · intro h
      obtain ⟨h1, _⟩ := (ih (pickNearer d acc s)).mp h
      exfalso
      rcases acc with _ | b
      · simp [pickNearer] at h1
      · have hne : pickNearer d (some b) s ≠ none := by
          unfold pickNearer
          split
          · simp
          · split <;> simp
        exact hne h1
    · intro h
      exact absurd h.2 (by simp)

/-- The row selected by `ORDER BY distance LIMIT 1` comes from the accumulator
or the list, is at least as near as the accumulator, and is at least as near
as every row of the list. -/
theorem foldl_pickNearer_min (d : AirQualityStation → ℚ) :
    ∀ (l : List AirQualityStation) (acc : Option AirQualityStation)
      (s : AirQualityStation),
      l.foldl (pickNearer d) acc = some s →
      (acc = some s ∨ s ∈ l) ∧ (∀ b, acc = some b → d s ≤ d b) ∧
        (∀ t ∈ l, d s ≤ d t) := by
  intro l
  induction l with
  | nil =>
    intro acc s h
    refine ⟨Or.inl h, fun b hb => ?_, fun t ht => absurd ht (List.not_mem_nil t)⟩
    rw [hb] at h
    injection h with he
    rw [he]
  | cons t0 l ih =>
    intro acc s h
    rw [List.foldl_cons] at h
    obtain ⟨hmem, hacc, hall⟩ := ih (pickNearer d acc t0) s h
    rcases acc with _ | b0
    · have hp : pickNearer d none t0 = some t0 := rfl
      refine ⟨Or.inr ?_, fun b hb => absurd hb (by simp), fun t ht => ?_⟩
      · rcases hmem with hm | hm
        · rw [hp] at hm
          injection hm with he
          rw [← he]
          exact List.mem_cons_self t0 l
        · exact List.mem_cons_of_mem t0 hm
      · rcases List.mem_cons.mp ht with rfl | ht
        · exact hacc t (by rw [hp])
        · exact hall t ht
    · by_cases hlt : d t0 < d b0
      · have hp : pickNearer d (some b0) t0 = some t0 := by
          simp [pickNearer, hlt]
        refine ⟨Or.inr ?_, fun b hb => ?_, fun t ht => ?_⟩
        · rcases hmem with hm | hm
          · rw [hp] at hm
            injection hm with he
            rw [← he]
            exact List.mem_cons_self t0 l
          · exact List.mem_cons_of_mem t0 hm
        · injection hb with he
          have hst0 := hacc t0 hp
          rw [← he]
          exact le_of_lt (lt_of_le_of_lt hst0 hlt)
        · rcases List.mem_cons.mp ht with rfl | ht
          · exact hacc t hp
          · exact hall t ht
      · have hp : pickNearer d (some b0) t0 = some b0 := by
          simp [pickNearer, hlt]
        refine ⟨?_, fun b hb => ?_, fun t ht => ?_⟩
        · rcases hmem with hm | hm
          · left
            rw [hp] at hm
            exact hm
          · exact Or.inr (List.mem_cons_of_mem t0 hm)
        · injection hb with he
          have hsb0 := hacc b0 hp
          rw [← he]
          exact hsb0
        · rcases List.mem_cons.mp ht with rfl | ht
          · have h1 := hacc b0 hp
            have h2 : d b0 ≤ d t := le_of_not_lt hlt
            exact le_trans h1 h2
          · exact hall t ht

/-- C7: `find_nearest_station` issues no write (the store component of the
operation is returned unchanged); it returns `none` exactly when no station is
both within `max_distance_km` kilometres and fresh within the 150-minute
window; and any returned station is such a candidate at minimum distance
among all candidates. -/
theorem C7_nearest_station (d : AirQualityStation → ℚ) (max_distance_km : ℚ)
    (now : Nat) (stations : List AirQualityStation) :
    ((find_nearest_station_op d max_distance_km now stations).2 = stations) ∧
    ((find_nearest_station_op d max_distance_km now stations).1 = none ↔
       ∀ st ∈ stations,
         ¬(d st ≤ max_distance_km * 1000 ∧ isFreshStation now st = true)) ∧
    (∀ s, (find_nearest_station_op d max_distance_km now stations).1 = some s →
       s ∈ stations ∧ isFreshStation now s = true ∧
         d s ≤ max_distance_km * 1000 ∧
         ∀ t ∈ stations, isFreshStation now t = true →
           d t ≤ max_distance_km * 1000 → d s ≤ d t) := by
  refine ⟨rfl, ?_, ?_⟩
  · show find_nearest_station d max_distance_km now stations = none ↔ _
    unfold find_nearest_station
    rw [foldl_pickNearer_eq_none]
    simp only [true_and]
    rw [List.filter_eq_nil_iff]
    constructor
    · intro h st hst hcond
      have := h st hst
      rw [Bool.and_eq_true] at this
      exact this ⟨decide_eq_true hcond.1, hcond.2⟩
    · intro h st hst hcond
      rw [Bool.and_eq_true] at hcond
      exact h st hst ⟨of_decide_eq_true hcond.1, hcond.2⟩
  · intro s h
    replace h : find_nearest_station d max_distance_km now stations = some s := h
    unfold find_nearest_station at h
    obtain ⟨hmem, _, hall⟩ := foldl_pickNearer_min d _ none s h
    rcases hmem with hm | hm
    · exact absurd hm (by simp)
    · rw [List.mem_filter, Bool.and_eq_true] at hm
      refine ⟨hm.1, hm.2.2, of_decide_eq_true hm.2.1, ?_⟩
      intro t ht hfresh hdist
      refine hall t ?_
      rw [List.mem_filter, Bool.and_eq_true]
      exact ⟨ht, decide_eq_true hdist, hfresh⟩

/-- The geodesic distance used by the C7 witness: station 1 lies 1 metre from
the query point, station 2 lies 2 metres away. -/
def d0 : AirQualityStation → ℚ := fun st => st.station_id

/-- C7 witness: at instant 36000 with a 50 km radius, station `stBad` (stale
measurement) is not a candidate, `stGood` is returned, it is fresh, within
range, at minimum distance, and the store is unchanged; and on an empty store
the resolver returns `none`. -/
theorem C7_nearest_station_witness :
    (find_nearest_station_op d0 50 36000 [stBad, stGood]).2 = [stBad, stGood] ∧
    stGood ∈ [stBad, stGood] ∧ isFreshStation 36000 stGood = true ∧
    d0 stGood ≤ 50 * 1000 ∧
    (find_nearest_station_op d0 50 36000 ([] : List AirQualityStation)).1 = none := by
  have hres : (find_nearest_station_op d0 50 36000 [stBad, stGood]).1 = some stGood := by
    have h1 : (decide (d0 stBad ≤ 50 * 1000) && isFreshStation 36000 stBad) = false := by
      simp [isFreshStation, stBad, freshCutoff]
    have h2 : (decide (d0 stGood ≤ 50 * 1000) && isFreshStation 36000 stGood) = true := by
      simp [isFreshStation, stGood, freshCutoff, d0]
      norm_num
    show find_nearest_station d0 50 36000 [stBad, stGood] = some stGood
    simp [find_nearest_station, List.filter, h1, h2, pickNearer]
  have h := (C7_nearest_station d0 50 36000 [stBad, stGood]).2.2 stGood hres
  have hnone := (C7_nearest_station d0 50 36000 []).2.1.mpr (by simp)
  exact ⟨(C7_nearest_station d0 50 36000 [stBad, stGood]).1, h.1, h.2.1, h.2.2.1, hnone⟩
